import Mathlib

/-!
Verification of the 2D wave-simulation core of `wave_sim`
(`src/wave_2d_simulation/simulation_plugin.rs`).

Embedding conventions:
* `f32` samples are embedded as exact rationals (`ℚ`); the claims under
  study are structural (which cells change, by which formula), not about
  floating-point rounding.
* The three-layer grid `SimulationGrid` (an ndarray of shape
  `(3, dimx, dimy)`) is embedded as a function `Nat → Nat → Nat → ℚ`
  (layer, x, y); theorems about array contents quantify over in-range
  indices.
* Fallible operations (`todo!` panics, fallible `get`) return `Option`.
* Bevy's `Timer` is embedded with its documented semantics: a paused
  timer is unaffected by `tick` and never reports `just_finished`.
* The repository's `finite_difference` module is not among the available
  sources; its functions are modelled from the spec and say so in their
  doc comments.
-/

/-- Run-time configuration, from `SimulationParameters`
(fields as used by `simulation_plugin.rs`). -/
structure SimulationParameters where
  dimx : Nat
  dimy : Nat
  wave_velocity : ℚ
  time_step_width : ℚ
  spatial_step_width : ℚ
  boundary_size : Nat
  use_absorbing_boundary : Bool
  applied_force_amplitude : ℚ

/-- The three-layer field `u`: layer 0 = current, 1 = previous, 2 = two
steps back, embedded as a total function on (layer, x, y). -/
def Grid : Type := Nat → Nat → Nat → ℚ

/-- The all-zero grid (`Array3::zeros`). -/
def zeroGrid : Grid := fun _ _ _ => 0

/-- Elementwise swap of two layers, as performed by
`Zip::from(u_a).and(&mut u_b).for_each(std::mem::swap)`. -/
def swapLayers (a b : Nat) (g : Grid) : Grid := fun l x y =>
  if l = a then g b x y else if l = b then g a x y else g l x y

/-- The layer rotation at the start of `update_wave`: swap layers 2 and 1,
then swap layers 1 and 0 (lines 111–116 of `simulation_plugin.rs`). -/
def rotate (g : Grid) : Grid := swapLayers 1 0 (swapLayers 2 1 g)

/-- Overwrite one cell of one layer with a value (`*u.0.get_mut(..) = v`). -/
def writeCell (g : Grid) (l x y : Nat) (v : ℚ) : Grid := fun l2 x2 y2 =>
  if l2 = l ∧ x2 = x ∧ y2 = y then v else g l2 x2 y2

/-- Bounds-checked read of the `(3, dimx, dimy)` array (`u.0.get`). -/
def gridGet (dimx dimy : Nat) (g : Grid) (l x y : Nat) : Option ℚ :=
  if l < 3 ∧ x < dimx ∧ y < dimy then some (g l x y) else none

/-- Bevy `Timer` state, embedded with documented bevy semantics:
duration and elapsed in seconds; `mode_repeating = false` is
`TimerMode::Once`. -/
structure Timer where
  duration : ℚ
  elapsed : ℚ
  mode_repeating : Bool
  paused : Bool
  finished : Bool

/-- `Timer::tick(delta)` followed by `just_finished()`: returns the
updated timer and whether the timer finished during this tick.
Bevy semantics: a paused timer is unaffected and never just-finishes;
a repeating timer wraps its elapsed time each period; a `Once` timer
clamps at its duration and just-finishes only on the tick that
reaches it. -/
def Timer.tick (t : Timer) (delta : ℚ) : Timer × Bool :=
  if t.paused then (t, false)
  else if t.mode_repeating then
    if t.duration ≤ 0 then
      ({ t with elapsed := 0, finished := true }, true)
    else
      let total := t.elapsed + delta
      if t.duration ≤ total then
        ({ t with
            elapsed := total - t.duration * ((total / t.duration).floor : ℚ),
            finished := true }, true)
      else ({ t with elapsed := total }, false)
  else
    let total := t.elapsed + delta
    if t.duration ≤ total then
      ({ t with elapsed := t.duration, finished := true }, ¬t.finished)
    else ({ t with elapsed := total }, false)

/-- The `ApplyingForceTimer` as created in `SimulationPlugin::build`:
`Timer::default()` (zero duration, `TimerMode::Once`, nothing elapsed,
not finished) followed by `timer.pause()`. -/
def builtTimer : Timer :=
  { duration := 0, elapsed := 0, mode_repeating := false,
    paused := true, finished := false }

/-- The canonical periodic-source coordinate `4 * dim / 6`
(integer floor division, as in `apply_force`). -/
def initCoord (dim : Nat) : Nat := 4 * dim / 6

/-- A `PlotClickedEvent` carrying (possibly fractional) grid
coordinates. -/
structure ForceEvent where
  x : ℚ
  y : ℚ

/-- `event.x.round() as usize`: round half away from zero, then saturate
below at zero. For every rational input this agrees with the Rust
composite (negative halves round differently in isolation but both land
below zero and saturate to 0). -/
def roundToUsize (q : ℚ) : Nat := (round q).toNat

/-- Handling of one `PlotClickedEvent` in `apply_force`: round the
coordinates, and only when `0 < x < dimx` and `0 < y < dimy` overwrite
that cell of layer 0 with `applied_force_amplitude`. -/
def applyEvent (p : SimulationParameters) (g : Grid) (e : ForceEvent) : Grid :=
  let event_x := roundToUsize e.x
  let event_y := roundToUsize e.y
  if 0 < event_x ∧ event_x < p.dimx ∧ 0 < event_y ∧ event_y < p.dimy then
    writeCell g 0 event_x event_y p.applied_force_amplitude
  else g

/-- The `apply_force` system: tick the force timer by the frame delta;
when it just finished, overwrite layer 0 at the canonical coordinate
with `applied_force_amplitude`; then apply the queued click events in
arrival order. -/
def apply_force (p : SimulationParameters) (t : Timer) (delta : ℚ)
    (events : List ForceEvent) (g : Grid) : Timer × Grid :=
  let tick := t.tick delta
  let g1 :=
    if tick.2 then
      writeCell g 0 (initCoord p.dimx) (initCoord p.dimy)
        p.applied_force_amplitude
    else g
  (tick.1, events.foldl (applyEvent p) g1)

/-- `setup`: the `Tau` coefficient field, constant
`((wave_velocity * time_step_width) / spatial_step_width)^2` of shape
`(dimx, dimy)` (embedded as its value function). -/
def setupTau (p : SimulationParameters) : Nat → Nat → ℚ := fun _ _ =>
  ((p.wave_velocity * p.time_step_width) / p.spatial_step_width) ^ 2

/-- `setup`: the `Kappa` coefficient field, constant
`time_step_width * wave_velocity / spatial_step_width`. -/
def setupKappa (p : SimulationParameters) : Nat → Nat → ℚ := fun _ _ =>
  p.time_step_width * p.wave_velocity / p.spatial_step_width

/-- `setup`: the grid is reinitialized to `Array3::zeros((3, dimx, dimy))`.
`setup` performs no validation of the parameters and cannot fail. -/
def setupGrid (_ : SimulationParameters) : Grid := zeroGrid

/-- A dense 2D rational array with explicit shape, standing for an
ndarray `Array2<f32>` return value. -/
structure Array2Q where
  rows : Nat
  cols : Nat
  data : Nat → Nat → ℚ

/-- Modelled from the spec: `update_with_laplace_operator_1` of the
`finite_difference` module (absent from the available sources). Classic
five-point Laplacian in the leapfrog form
`new = tau*(up+down+left+right - 4*center) + 2*prev - twoback`, where
the neighbours and `prev` are read from layer 1 (previous) and `twoback`
from layer 2, producing the interior of shape `(dimx-2, dimy-2)`. -/
def update_with_laplace_operator_1 (dimx dimy : Nat) (tau : Nat → Nat → ℚ)
    (u : Grid) : Array2Q where
  rows := dimx - 2 * 1
  cols := dimy - 2 * 1
  data := fun i j =>
    let x := i + 1
    let y := j + 1
    tau x y *
        (u 1 (x - 1) y + u 1 (x + 1) y + u 1 x (y - 1) + u 1 x (y + 1)
          - 4 * u 1 x y)
      + 2 * u 1 x y - u 2 x y

/-- Modelled from the spec: `update_with_laplace_operator_4` of the
`finite_difference` module (absent from the available sources).
Fourth-order-accurate Laplacian, 5-point per axis with coefficients
`[-1/12, 4/3, -5/2, 4/3, -1/12]`, in the same leapfrog time update,
producing the interior of shape `(dimx-8, dimy-8)` (halo 4). -/
def update_with_laplace_operator_4 (dimx dimy : Nat) (tau : Nat → Nat → ℚ)
    (u : Grid) : Array2Q where
  rows := dimx - 2 * 4
  cols := dimy - 2 * 4
  data := fun i j =>
    let x := i + 4
    let y := j + 4
    let lap :=
      (-1 / 12 : ℚ) * u 1 (x - 2) y + (4 / 3 : ℚ) * u 1 (x - 1) y
        + (-5 / 2 : ℚ) * u 1 x y + (4 / 3 : ℚ) * u 1 (x + 1) y
        + (-1 / 12 : ℚ) * u 1 (x + 2) y
        + (-1 / 12 : ℚ) * u 1 x (y - 2) + (4 / 3 : ℚ) * u 1 x (y - 1)
        + (-5 / 2 : ℚ) * u 1 x y + (4 / 3 : ℚ) * u 1 x (y + 1)
        + (-1 / 12 : ℚ) * u 1 x (y + 2)
    tau x y * lap + 2 * u 1 x y - u 2 x y

/-- The write-back
`u.0.slice_mut(s![0, bs..dimx-bs, bs..dimy-bs]).assign(&new_u)`:
cells of layer 0 inside the interior sub-region take the corresponding
stencil value; everything else is untouched. -/
def assignInterior (dimx dimy bs : Nat) (a : Array2Q) (g : Grid) : Grid :=
  fun l x y =>
    if l = 0 ∧ bs ≤ x ∧ x < dimx - bs ∧ bs ≤ y ∧ y < dimy - bs then
      a.data (x - bs) (y - bs)
    else g l x y

/-- Whether `(x, y)` lies in the boundary ring of width `bs` of the
`dimx × dimy grid`. -/
def inBoundaryRing (dimx dimy bs x y : Nat) : Bool :=
  x < dimx && y < dimy
    && (x < bs || dimx - bs ≤ x || y < bs || dimy - bs ≤ y)

/-- The coordinate one step toward the interior from a ring cell
(per axis; unchanged when the axis is already interior). -/
def towardInterior (dim bs x : Nat) : Nat :=
  if x < bs then x + 1 else if dim - bs ≤ x then x - 1 else x

/-- Modelled from the spec: `update_with_absorbing_boundary` of the
`finite_difference` module (absent from the available sources). A
first-order Mur-type absorbing boundary: every ring cell of layer 0 is
recomputed from the interior-adjacent values and the previous-layer
boundary value, blended by the `kappa` coefficient; only ring cells of
layer 0 are modified. -/
def update_with_absorbing_boundary (dimx dimy bs : Nat)
    (kappa : Nat → Nat → ℚ) (g : Grid) : Grid := fun l x y =>
  if l = 0 ∧ inBoundaryRing dimx dimy bs x y = true then
    let xi := towardInterior dimx bs x
    let yi := towardInterior dimy bs y
    g 1 xi yi + ((kappa x y - 1) / (kappa x y + 1)) * (g 0 xi yi - g 1 x y)
  else g l x y

/-- The attenuating fallback `u.0.mapv_inplace(|u| u * 0.995)`: every
sample of the whole three-layer array is scaled by 0.995. -/
def attenuate (g : Grid) : Grid := fun l x y => g l x y * (0.995 : ℚ)

/-- The boundary phase of `update_wave` (lines 143–153): absorbing
boundary when `use_absorbing_boundary`, else global attenuation. -/
def boundaryStep (p : SimulationParameters) (kappa : Nat → Nat → ℚ)
    (g : Grid) : Grid :=
  if p.use_absorbing_boundary then
    update_with_absorbing_boundary p.dimx p.dimy p.boundary_size kappa g
  else attenuate g

/-- The stencil phase of `update_wave` (lines 118–141): select the
operator by `boundary_size` (any other value hits `todo!`, a panic,
embedded as `none`) and write its result back into the interior of
layer 0. -/
def stencilStep (p : SimulationParameters) (tau : Nat → Nat → ℚ)
    (g : Grid) : Option Grid :=
  if p.boundary_size = 1 then
    some (assignInterior p.dimx p.dimy p.boundary_size
      (update_with_laplace_operator_1 p.dimx p.dimy tau g) g)
  else if p.boundary_size = 4 then
    some (assignInterior p.dimx p.dimy p.boundary_size
      (update_with_laplace_operator_4 p.dimx p.dimy tau g) g)
  else none

/-- The `update_wave` system: rotate the layers, evaluate the stencil
selected by `boundary_size` and write it into the interior of the new
layer 0, then apply the boundary treatment; `none` embeds the `todo!`
panic on an unsupported `boundary_size`. -/
def update_wave (p : SimulationParameters) (tau kappa : Nat → Nat → ℚ)
    (g : Grid) : Option Grid :=
  let u1 := rotate g
  match stencilStep p tau u1 with
  | none => none
  | some u2 => some (boundaryStep p kappa u2)

/-- One frame in which `apply_force` runs before `update_wave`. The code
registers both systems in the same `SystemSet` with no ordering
constraint, so this is one of the two admissible schedules. -/
def tick_force_then_wave (p : SimulationParameters)
    (tau kappa : Nat → Nat → ℚ) (t : Timer) (delta : ℚ)
    (events : List ForceEvent) (g : Grid) : Timer × Option Grid :=
  let fg := apply_force p t delta events g
  (fg.1, update_wave p tau kappa fg.2)

/-- One frame in which `update_wave` runs before `apply_force` — the
other admissible schedule for the unordered system pair (a panic in
`update_wave` aborts the frame). -/
def tick_wave_then_force (p : SimulationParameters)
    (tau kappa : Nat → Nat → ℚ) (t : Timer) (delta : ℚ)
    (events : List ForceEvent) (g : Grid) : Timer × Option Grid :=
  match update_wave p tau kappa g with
  | none => (t, none)
  | some g1 =>
    let fg := apply_force p t delta events g1
    (fg.1, some fg.2)

/-- Iterated frames (force before wave), with no click events queued,
threading the force timer; `none` records a panic. -/
def runTicks (p : SimulationParameters) (tau kappa : Nat → Nat → ℚ) :
    Timer → List ℚ → Grid → Timer × Option Grid
  | t, [], g => (t, some g)
  | t, delta :: ds, g =>
    let fg := apply_force p t delta [] g
    match update_wave p tau kappa fg.2 with
    | none => (fg.1, none)
    | some g2 => runTicks p tau kappa fg.1 ds g2

/-- Layer-0 sample of an optional grid (0 when the frame panicked);
used to observe results of whole frames. -/
def cellAt (og : Option Grid) (x y : Nat) : ℚ :=
  match og with
  | none => 0
  | some g => g 0 x y

/-- Iterated `apply_force` frames with no click events, threading the
timer. -/
def applyForceRun (p : SimulationParameters) :
    Timer → List ℚ → Grid → Timer × Grid
  | t, [], g => (t, g)
  | t, delta :: ds, g =>
    let fg := apply_force p t delta [] g
    applyForceRun p fg.1 ds fg.2

/-- Example parameters: 4×4 grid, `boundary_size` 1, attenuating
boundary, unit force amplitude. -/
def pAtt : SimulationParameters :=
  { dimx := 4, dimy := 4, wave_velocity := 1, time_step_width := 1,
    spatial_step_width := 1, boundary_size := 1,
    use_absorbing_boundary := false, applied_force_amplitude := 1 }

/-- Example parameters: as `pAtt` but with the absorbing boundary. -/
def pAbs : SimulationParameters :=
  { pAtt with use_absorbing_boundary := true }

/-- Example parameters for the fourth-order stencil: 12×12 grid,
`boundary_size` 4, absorbing boundary. -/
def pAbs4 : SimulationParameters :=
  { dimx := 12, dimy := 12, wave_velocity := 1, time_step_width := 1,
    spatial_step_width := 1, boundary_size := 4,
    use_absorbing_boundary := true, applied_force_amplitude := 1 }

/-- Example parameters with the unsupported `boundary_size` 2. -/
def pBS2 : SimulationParameters :=
  { pAtt with boundary_size := 2 }

/-- A constant-one grid. -/
def oneGrid : Grid := fun _ _ _ => 1

/-- An unpaused one-second one-shot timer (fires when ticked a full
second). -/
def fireTimer : Timer :=
  { duration := 1, elapsed := 0, mode_repeating := false,
    paused := false, finished := false }

/-- An example 2×2 stencil-output array with constant value 5. -/
def aEx : Array2Q := { rows := 2, cols := 2, data := fun _ _ => 5 }

/-- Example parameters with the smallest positive dimensions. -/
def pMin : SimulationParameters :=
  { pAtt with dimx := 1, dimy := 1 }

/-- C1. After `rotate`, the new layer 1 holds the old layer 0 content A,
the new layer 2 holds the old layer 1 content B, and the new layer 0
holds the stale old layer 2 content C — at every cell. -/
theorem rotate_three_way_rotation (g : Grid) (x y : Nat) :
    rotate g 1 x y = g 0 x y ∧ rotate g 2 x y = g 1 x y ∧
      rotate g 0 x y = g 2 x y := by
  refine ⟨?_, ?_, ?_⟩ <;> rfl

/-- C2 counterexample. With the unsupported `boundary_size = 2`, `setup`
does not raise any error: it initializes the zero grid (readable
afterwards), and the failure only occurs at the first stencil
evaluation, where `update_wave` hits the `todo!` panic. -/
theorem setup_skips_validation_counterexample :
    setupGrid pBS2 0 1 1 = 0 ∧
      gridGet pBS2.dimx pBS2.dimy (setupGrid pBS2) 0 1 1 = some 0 ∧
      update_wave pBS2 (setupTau pBS2) (setupKappa pBS2) (setupGrid pBS2)
        = none := by
  exact ⟨rfl, rfl, rfl⟩

/-- C2 amended. `setup` performs no validation and always initializes
the all-zero grid, for any parameters; a `boundary_size` outside `{1,4}`
makes the first `update_wave` call panic (`todo!`, embedded as `none`)
at stencil selection — never a silent default stencil — instead of a
configuration error at setup. -/
theorem unsupported_boundary_size_panics_at_first_stencil
    (p : SimulationParameters) (tau kappa : Nat → Nat → ℚ) (g : Grid)
    (h1 : p.boundary_size ≠ 1) (h4 : p.boundary_size ≠ 4) :
    setupGrid p = zeroGrid ∧ update_wave p tau kappa g = none := by
  refine ⟨rfl, ?_⟩
  simp [update_wave, stencilStep, h1, h4]

/-- C2 witness: the amended theorem applied at `boundary_size = 2`. -/
theorem unsupported_boundary_size_panics_witness :
    setupGrid pBS2 = zeroGrid ∧
      update_wave pBS2 (setupTau pBS2) (setupKappa pBS2) zeroGrid
        = none :=
  unsupported_boundary_size_panics_at_first_stencil pBS2 (setupTau pBS2)
    (setupKappa pBS2) zeroGrid (by decide) (by decide)

/-- C3 counterexample. The force timer is created by `Timer::default()`
and immediately paused, and no code ever unpauses or configures it: it
does not fire even after a full second has elapsed, and the canonical
cell stays 0 instead of receiving the force amplitude 1. -/
theorem periodic_force_never_fires_counterexample :
    (builtTimer.tick 1).2 = false ∧
      (apply_force pAtt builtTimer 1 [] zeroGrid).2 0 (initCoord pAtt.dimx)
          (initCoord pAtt.dimy) = 0 ∧
      pAtt.applied_force_amplitude = 1 := by
  refine ⟨rfl, rfl, rfl⟩

/-- C3 amended. The force timer is built paused (default duration, `Once`
mode) and never unpaused, so over any sequence of frames it never fires
and `apply_force` (with no click events) changes nothing; on the
never-taken fire branch, the write would overwrite layer 0 at
`(4*dimx/6, 4*dimy/6)` (integer floor division) with
`applied_force_amplitude`. -/
theorem force_timer_paused_never_fires (p : SimulationParameters) :
    (∀ (ds : List ℚ) (g : Grid),
        applyForceRun p builtTimer ds g = (builtTimer, g)) ∧
    (∀ (t : Timer) (delta : ℚ) (g : Grid), (t.tick delta).2 = true →
        (apply_force p t delta [] g).2 =
          writeCell g 0 (initCoord p.dimx) (initCoord p.dimy)
            p.applied_force_amplitude) := by
  constructor
  · intro ds
    induction ds with
    | nil => intro g; rfl
    | cons d ds ih =>
      intro g
      have hstep : apply_force p builtTimer d [] g = (builtTimer, g) := rfl
      simp [applyForceRun, hstep, ih]
  · intro t delta g h
    simp [apply_force, h]

/-- C3 witness: the fire branch of the amended theorem applied to an
unpaused timer that completes its period. -/
theorem force_timer_fire_branch_witness :
    (apply_force pAtt fireTimer 1 [] zeroGrid).2 =
      writeCell zeroGrid 0 (initCoord pAtt.dimx) (initCoord pAtt.dimy)
        pAtt.applied_force_amplitude :=
  (force_timer_paused_never_fires pAtt).2 fireTimer 1 zeroGrid
    (by simp [Timer.tick, fireTimer])

/-- C4. With `use_absorbing_boundary = false`, the boundary phase leaves
every sample of the current layer equal to its pre-boundary value times
exactly 0.995, interior and edge cells alike. -/
theorem attenuating_boundary_scales_current_layer
    (p : SimulationParameters) (kappa : Nat → Nat → ℚ) (g : Grid)
    (x y : Nat) (h : p.use_absorbing_boundary = false) :
    boundaryStep p kappa g 0 x y = g 0 x y * (0.995 : ℚ) := by
  simp [boundaryStep, h, attenuate]

/-- C4 witness: the theorem applied at the attenuating parameters and a
concrete cell. -/
theorem attenuating_boundary_scales_current_layer_witness :
    boundaryStep pAtt (setupKappa pAtt) oneGrid 0 1 1 =
      oneGrid 0 1 1 * (0.995 : ℚ) :=
  attenuating_boundary_scales_current_layer pAtt (setupKappa pAtt) oneGrid
    1 1 rfl

/-- C5 counterexample. The attenuating step is `mapv_inplace` over the
whole three-layer array: it also rescales the previous layer (layer 1),
so a layer-1 sample of value 1 does not stay 1. -/
theorem attenuation_modifies_previous_layer_counterexample :
    boundaryStep pAtt (setupKappa pAtt) oneGrid 1 1 1 ≠ oneGrid 1 1 1 := by
  norm_num [boundaryStep, pAtt, attenuate, oneGrid]

/-- C5 amended. With `use_absorbing_boundary = false`, the attenuating
step multiplies every sample of all three layers — current, previous and
two-back alike — by 0.995; it is not restricted to the current layer. -/
theorem attenuating_boundary_scales_all_layers
    (p : SimulationParameters) (kappa : Nat → Nat → ℚ) (g : Grid)
    (l x y : Nat) (h : p.use_absorbing_boundary = false) :
    boundaryStep p kappa g l x y = g l x y * (0.995 : ℚ) := by
  simp [boundaryStep, h, attenuate]

/-- C5 witness: the amended theorem applied at the two-back layer. -/
theorem attenuating_boundary_scales_all_layers_witness :
    boundaryStep pAtt (setupKappa pAtt) oneGrid 2 1 1 =
      oneGrid 2 1 1 * (0.995 : ℚ) :=
  attenuating_boundary_scales_all_layers pAtt (setupKappa pAtt) oneGrid
    2 1 1 rfl

/-- C6. A `ForceEvent` is rounded to the nearest integer cell; the grid
is modified — by overwriting exactly that cell of layer 0 with
`applied_force_amplitude` — only when the rounded coordinates satisfy
`0 < x < dimx` and `0 < y < dimy`; an event whose rounded coordinates
are 0 or reach `dimx`/`dimy` (or lie outside the grid) leaves the grid
entirely unchanged, with no error. -/
theorem force_event_interior_clamp (p : SimulationParameters) (g : Grid)
    (e : ForceEvent) :
    (roundToUsize e.x = 0 ∨ p.dimx ≤ roundToUsize e.x ∨
        roundToUsize e.y = 0 ∨ p.dimy ≤ roundToUsize e.y →
      applyEvent p g e = g) ∧
    (0 < roundToUsize e.x → roundToUsize e.x < p.dimx →
        0 < roundToUsize e.y → roundToUsize e.y < p.dimy →
      applyEvent p g e 0 (roundToUsize e.x) (roundToUsize e.y) =
          p.applied_force_amplitude ∧
        ∀ l x y,
          ¬(l = 0 ∧ x = roundToUsize e.x ∧ y = roundToUsize e.y) →
            applyEvent p g e l x y = g l x y) := by
  constructor
  · intro h
    rw [applyEvent, if_neg]
    rintro ⟨h1, h2, h3, h4⟩
    rcases h with h | h | h | h <;> omega
  · intro h1 h2 h3 h4
    constructor
    · simp [applyEvent, h1, h2, h3, h4, writeCell]
    · intro l x y hne
      rw [applyEvent, if_pos ⟨h1, h2, h3, h4⟩, writeCell, if_neg hne]

/-- A click event at fractional coordinates (2.4, 1.5), rounding into
the interior of a 4×4 grid. -/
def eIn : ForceEvent := { x := 12 / 5, y := 3 / 2 }

/-- A click event at fractional coordinates (0.2, 1.5), rounding onto
the excluded x = 0 edge. -/
def eOut : ForceEvent := { x := 1 / 5, y := 3 / 2 }

theorem roundToUsize_eIn_x : roundToUsize eIn.x = 2 := by
  rw [eIn, roundToUsize, round_eq]
  norm_num
  all_goals decide

theorem roundToUsize_eIn_y : roundToUsize eIn.y = 2 := by
  rw [eIn, roundToUsize, round_eq]
  norm_num
  all_goals decide

theorem roundToUsize_eOut_x : roundToUsize eOut.x = 0 := by
  rw [eOut, roundToUsize, round_eq]
  norm_num

/-- C6 witness: the clamp theorem applied to a concrete edge-rounding
event (no modification) and a concrete interior-rounding event (write at
the rounded cell, other cells untouched). -/
theorem force_event_interior_clamp_witness :
    applyEvent pAtt oneGrid eOut = oneGrid ∧
      applyEvent pAtt oneGrid eIn 0 (roundToUsize eIn.x)
          (roundToUsize eIn.y) = pAtt.applied_force_amplitude ∧
      applyEvent pAtt oneGrid eIn 1 2 2 = oneGrid 1 2 2 :=
  ⟨(force_event_interior_clamp pAtt oneGrid eOut).1
      (Or.inl roundToUsize_eOut_x),
    ((force_event_interior_clamp pAtt oneGrid eIn).2
        (by simp [roundToUsize_eIn_x]) (by simp [roundToUsize_eIn_x, pAtt])
        (by simp [roundToUsize_eIn_y]) (by simp [roundToUsize_eIn_y, pAtt])).1,
    ((force_event_interior_clamp pAtt oneGrid eIn).2
        (by simp [roundToUsize_eIn_x]) (by simp [roundToUsize_eIn_x, pAtt])
        (by simp [roundToUsize_eIn_y]) (by simp [roundToUsize_eIn_y, pAtt])).2
      1 2 2 (by simp)⟩

/-- Helper: `update_wave` is exactly the sequential composition
rotation → stencil write-back → boundary treatment. -/
theorem update_wave_phases (p : SimulationParameters)
    (tau kappa : Nat → Nat → ℚ) (g : Grid) :
    update_wave p tau kappa g =
      (stencilStep p tau (rotate g)).map (boundaryStep p kappa) := by
  rw [update_wave]
  cases stencilStep p tau (rotate g) <;> rfl

/-- C7 counterexample. `SimulationPlugin::build` registers `apply_force`
and `update_wave` in one `SystemSet` with no ordering constraint, so the
schedule running `update_wave` before `apply_force` is admissible — and
it produces a different field than the claimed force-before-rotation
order: with a firing timer over a zero field, cell (2,2) of the current
layer ends as the freshly injected amplitude 1 instead of the
stencil-propagated and attenuated value. -/
theorem tick_order_unconstrained_counterexample :
    cellAt (tick_wave_then_force pAtt (setupTau pAtt) (setupKappa pAtt)
        fireTimer 1 [] zeroGrid).2 2 2 ≠
      cellAt (tick_force_then_wave pAtt (setupTau pAtt) (setupKappa pAtt)
        fireTimer 1 [] zeroGrid).2 2 2 := by
  norm_num [tick_wave_then_force, tick_force_then_wave, update_wave,
    stencilStep, boundaryStep, attenuate, assignInterior, rotate,
    swapLayers, apply_force, Timer.tick, fireTimer, writeCell, applyEvent,
    update_with_laplace_operator_1, pAtt, setupTau, setupKappa, zeroGrid,
    cellAt, initCoord]

/-- C7 amended. Within `update_wave` the phases run in the order
rotation → stencil write-back of the post-rotation current layer's
interior → boundary treatment; and within `apply_force` the periodic
fire is applied before the queued `ForceEvent`s (in arrival order). The
code imposes no ordering between `apply_force` and `update_wave`
themselves, so force injection is not guaranteed to precede rotation. -/
theorem tick_phase_order (p : SimulationParameters)
    (tau kappa : Nat → Nat → ℚ) (g : Grid) :
    update_wave p tau kappa g =
        (stencilStep p tau (rotate g)).map (boundaryStep p kappa) ∧
      ∀ (t : Timer) (delta : ℚ) (events : List ForceEvent) (g0 : Grid),
        apply_force p t delta events g0 =
          ((t.tick delta).1,
            events.foldl (applyEvent p)
              (if (t.tick delta).2 = true then
                writeCell g0 0 (initCoord p.dimx) (initCoord p.dimy)
                  p.applied_force_amplitude
              else g0)) :=
  ⟨update_wave_phases p tau kappa g, fun _ _ _ _ => rfl⟩

/-- Helper: one `update_wave` on the all-zero grid yields the all-zero
grid, for either supported stencil order and either boundary mode. -/
theorem update_wave_zero (p : SimulationParameters)
    (tau kappa : Nat → Nat → ℚ)
    (h : p.boundary_size = 1 ∨ p.boundary_size = 4) :
    update_wave p tau kappa zeroGrid = some zeroGrid := by
  have hrot : rotate zeroGrid = zeroGrid := by
    funext l x y
    simp [rotate, swapLayers, zeroGrid]
  have hassign : ∀ (bs : Nat) (a : Array2Q), (∀ i j, a.data i j = 0) →
      assignInterior p.dimx p.dimy bs a zeroGrid = zeroGrid := by
    intro bs a ha
    funext l x y
    simp [assignInterior, zeroGrid, ha]
  have hbound : boundaryStep p kappa zeroGrid = zeroGrid := by
    funext l x y
    by_cases habs : p.use_absorbing_boundary = true
    · simp [boundaryStep, habs, update_with_absorbing_boundary, zeroGrid]
    · simp [boundaryStep, habs, attenuate, zeroGrid]
  rw [update_wave_phases, hrot]
  rcases h with h | h
  · rw [stencilStep, if_pos h,
      hassign p.boundary_size _ (by intro i j; simp [update_with_laplace_operator_1, zeroGrid])]
    simp [hbound]
  · have h1 : p.boundary_size ≠ 1 := by omega
    rw [stencilStep, if_neg h1, if_pos h,
      hassign p.boundary_size _ (by intro i j; simp [update_with_laplace_operator_4, zeroGrid])]
    simp [hbound]

/-- C8. Starting from the all-zero three-layer grid, with the force
timer as built (paused, never fires) and no `ForceEvent`s, any number of
frames leaves the field identically zero — for `boundary_size` 1 or 4
and for both the absorbing and the attenuating boundary mode. -/
theorem zero_field_stays_zero (p : SimulationParameters)
    (tau kappa : Nat → Nat → ℚ) (ds : List ℚ)
    (h : p.boundary_size = 1 ∨ p.boundary_size = 4) :
    runTicks p tau kappa builtTimer ds zeroGrid =
      (builtTimer, some zeroGrid) := by
  induction ds with
  | nil => rfl
  | cons d ds ih =>
    have hforce : apply_force p builtTimer d [] zeroGrid =
        (builtTimer, zeroGrid) := rfl
    simp only [runTicks, hforce, update_wave_zero p tau kappa h]
    exact ih

/-- C8 witness: two frames at `boundary_size` 1 with the absorbing
boundary. -/
theorem zero_field_stays_zero_witness :
    runTicks pAbs (setupTau pAbs) (setupKappa pAbs) builtTimer [1, 1]
      zeroGrid = (builtTimer, some zeroGrid) :=
  zero_field_stays_zero pAbs (setupTau pAbs) (setupKappa pAbs) [1, 1]
    (Or.inl rfl)

/-- C9. Each stencil evaluator produces an array of shape
`(dimx - 2*boundary_size, dimy - 2*boundary_size)`, and the write-back
assigns it to exactly the interior sub-region
`[bs, dimx-bs) × [bs, dimy-bs)` of layer 0: interior cells of layer 0
take the corresponding array entry, the boundary-ring cells of layer 0
are unchanged, and every cell of layers 1 and 2 is unchanged. -/
theorem stencil_writeback_shape_and_frame (dimx dimy : Nat)
    (tau : Nat → Nat → ℚ) (u : Grid) :
    (update_with_laplace_operator_1 dimx dimy tau u).rows = dimx - 2 * 1 ∧
    (update_with_laplace_operator_1 dimx dimy tau u).cols = dimy - 2 * 1 ∧
    (update_with_laplace_operator_4 dimx dimy tau u).rows = dimx - 2 * 4 ∧
    (update_with_laplace_operator_4 dimx dimy tau u).cols = dimy - 2 * 4 ∧
    ∀ (bs : Nat) (a : Array2Q) (g : Grid) (l x y : Nat),
      (l = 0 → bs ≤ x → x < dimx - bs → bs ≤ y → y < dimy - bs →
        assignInterior dimx dimy bs a g l x y = a.data (x - bs) (y - bs)) ∧
      (l = 0 → (x < bs ∨ dimx - bs ≤ x ∨ y < bs ∨ dimy - bs ≤ y) →
        assignInterior dimx dimy bs a g l x y = g l x y) ∧
      (l ≠ 0 → assignInterior dimx dimy bs a g l x y = g l x y) := by
  refine ⟨rfl, rfl, rfl, rfl, ?_⟩
  intro bs a g l x y
  refine ⟨?_, ?_, ?_⟩
  · intro hl h1 h2 h3 h4
    rw [assignInterior, if_pos ⟨hl, h1, h2, h3, h4⟩]
  · intro hl hring
    rw [assignInterior, if_neg]
    rintro ⟨-, k1, k2, k3, k4⟩
    rcases hring with h | h | h | h <;> omega
  · intro hl
    rw [assignInterior, if_neg]
    rintro ⟨k, -⟩
    exact hl k

/-- C9 witness: the theorem applied on a 4×4 grid with ring width 1 —
shape of the order-1 output, an interior write, an untouched ring cell
and an untouched previous-layer cell. -/
theorem stencil_writeback_shape_and_frame_witness :
    (update_with_laplace_operator_1 4 4 (setupTau pAtt) zeroGrid).rows
        = 4 - 2 * 1 ∧
      assignInterior 4 4 1 aEx oneGrid 0 2 2 = aEx.data 1 1 ∧
      assignInterior 4 4 1 aEx oneGrid 0 0 2 = oneGrid 0 0 2 ∧
      assignInterior 4 4 1 aEx oneGrid 1 2 2 = oneGrid 1 2 2 :=
  ⟨(stencil_writeback_shape_and_frame 4 4 (setupTau pAtt) zeroGrid).1,
    ((stencil_writeback_shape_and_frame 4 4 (setupTau pAtt) zeroGrid).2.2.2.2
        1 aEx oneGrid 0 2 2).1 rfl (by decide) (by decide) (by decide)
      (by decide),
    ((stencil_writeback_shape_and_frame 4 4 (setupTau pAtt) zeroGrid).2.2.2.2
        1 aEx oneGrid 0 0 2).2.1 rfl (Or.inl (by decide)),
    ((stencil_writeback_shape_and_frame 4 4 (setupTau pAtt) zeroGrid).2.2.2.2
        1 aEx oneGrid 1 2 2).2.2 (by decide)⟩

/-- C10. For positive grid dimensions the canonical periodic-source
coordinates `4*dimx/6` and `4*dimy/6` (integer floor division) are
strictly inside the dimensions, so the periodic-force write at
`(0, init_x, init_y)` is in bounds of the `(3, dimx, dimy)` array and
its `unwrap` cannot fail. -/
theorem canonical_coordinate_in_bounds (p : SimulationParameters)
    (hx : 1 ≤ p.dimx) (hy : 1 ≤ p.dimy) :
    initCoord p.dimx < p.dimx ∧ initCoord p.dimy < p.dimy ∧
      ∀ g : Grid,
        (gridGet p.dimx p.dimy g 0 (initCoord p.dimx)
          (initCoord p.dimy)).isSome = true := by
  have h1 : initCoord p.dimx < p.dimx := by rw [initCoord]; omega
  have h2 : initCoord p.dimy < p.dimy := by rw [initCoord]; omega
  refine ⟨h1, h2, ?_⟩
  intro g
  rw [gridGet, if_pos ⟨by omega, h1, h2⟩]
  rfl

/-- C10 witness: the bounds theorem applied at the smallest positive
dimensions (1×1). -/
theorem canonical_coordinate_in_bounds_witness :
    initCoord pMin.dimx < pMin.dimx ∧ initCoord pMin.dimy < pMin.dimy ∧
      (gridGet pMin.dimx pMin.dimy zeroGrid 0 (initCoord pMin.dimx)
        (initCoord pMin.dimy)).isSome = true :=
  ⟨(canonical_coordinate_in_bounds pMin (by decide) (by decide)).1,
    (canonical_coordinate_in_bounds pMin (by decide) (by decide)).2.1,
    (canonical_coordinate_in_bounds pMin (by decide) (by decide)).2.2
      zeroGrid⟩
